import Mathlib

/-!
# Verification of the openwebui-workflow-hub chat-session core

A shallow embedding, in Lean 4, of the session store, chat orchestration,
Langflow response normalization and realtime (WebSocket) protocol of the
`openwebui-workflow-hub` repository, together with theorems settling the
spec claims about them.

The embedded sources:
* `SessionService` (in-memory session store, `src/backend/services/session.ts`)
* `LangflowService.sendMessage` response normalization
  (`src/backend/services/langflow.ts`)
* the chat routes (`src/backend/routes/chat.ts`): `POST /api/chat/send`,
  `GET /api/chat/messages/:sessionId`
* the session routes (`src/backend/routes/sessions.ts`): `POST /api/sessions`,
  `PATCH /api/sessions/:sessionId`
* the WebSocket handler (`websocketHandler` / `handleChatMessage` /
  `handleStatusUpdate`)

Timestamps are modelled as natural numbers, generated ids as explicit string
parameters, and the external engine call as an explicit outcome parameter
(its success body, or the thrown error message).
-/

namespace Owh

/-! ## A model of JavaScript runtime values

JSON values plus `undefined`, which property access and optional chaining
produce at runtime.  Objects are insertion-ordered association lists, as in
JavaScript; the object literals built by the embedded code never carry a
duplicate key, so first-match lookup coincides with JS lookup.
-/

inductive JsVal : Type where
  | undef : JsVal
  | null : JsVal
  | bool : Bool → JsVal
  | num : Int → JsVal
  | str : String → JsVal
  | arr : List JsVal → JsVal
  | obj : List (String × JsVal) → JsVal
  deriving Repr

namespace JsVal

/-- Look a key up in an association list of object fields. -/
def lookupField : List (String × JsVal) → String → Option JsVal
  | [], _ => none
  | (k, v) :: rest, key => if k = key then some v else lookupField rest key

/-- JavaScript guarded property access `v?.key`: `undefined` on `null` or
`undefined` receivers; field lookup on objects (`undefined` when the key is
absent); `undefined` on every other primitive (none of the embedded code
reads built-in properties such as `length`). -/
def getField : JsVal → String → JsVal
  | obj fields, key => (lookupField fields key).getD undef
  | _, _ => undef

/-- JavaScript guarded index access `v?.[i]`: array element (`undefined` out
of range), string character, object field under the numeric key, and
`undefined` otherwise (including on `null`/`undefined` receivers). -/
def getIndex : JsVal → Nat → JsVal
  | arr xs, i => (xs.getD i undef)
  | str s, i => if h : i < s.length then str (String.singleton (s.toList.get ⟨i, by simpa using h⟩)) else undef
  | obj fields, i => (lookupField fields (toString i)).getD undef
  | _, _ => undef

/-- JavaScript truthiness (`NaN` is not representable in this model). -/
def truthy : JsVal → Bool
  | undef => false
  | null => false
  | bool b => b
  | num n => n ≠ 0
  | str s => s ≠ ""
  | arr _ => true
  | obj _ => true

/-- JavaScript `x || y`. -/
def jsOr (x y : JsVal) : JsVal := if truthy x then x else y

/-- Object spread `{...v}` as a field list: an object's own fields; a string
or array spreads to index-keyed entries; `null`, `undefined`, booleans and
numbers spread to nothing. -/
def spreadFields : JsVal → List (String × JsVal)
  | obj fields => fields
  | str s => (s.toList.enum.map fun p => (toString p.1, str (String.singleton p.2)))
  | arr xs => (xs.enum.map fun p => (toString p.1, p.2))
  | _ => []

/-- Setting a key in an object literal after a spread: an existing key keeps
its position and gets the new value, a new key is appended. -/
def setKey : List (String × JsVal) → String → JsVal → List (String × JsVal)
  | [], key, v => [(key, v)]
  | (k, w) :: rest, key, v =>
      if k = key then (k, v) :: rest else (k, w) :: setKey rest key v

end JsVal

/-! ## Realtime channel (`websocketHandler`)

`websocketHandler` installs a message listener that `JSON.parse`s the frame,
switches on `data.type`, echoes `message` frames, logs `status` frames, and
ignores everything else; a thrown exception (unparseable JSON, or the
`data.type` access throwing on `null`) is answered with an inline error
envelope.  The connection is never closed by the handler.
-/

/-- An incoming frame: either text that is not valid JSON (so `JSON.parse`
throws), or the JSON value it parses to. -/
inductive WsInput : Type where
  | notJson : WsInput
  | json : JsVal → WsInput
  deriving Repr

/-- The reply sent for an unparseable frame. -/
def wsErrorReply : JsVal :=
  .obj [("type", .str "error"), ("data", .obj [("error", .str "Invalid message format")])]

/-- The `data` of the echo reply built by `handleChatMessage`:
`{...data.data, echo: true, timestamp: <fresh>}` . -/
def wsEchoData (v : JsVal) (timestamp : String) : JsVal :=
  .obj (JsVal.setKey (JsVal.setKey (JsVal.spreadFields (v.getField "data"))
          "echo" (.bool true)) "timestamp" (.str timestamp))

/-- The echo reply envelope built by `handleChatMessage`. -/
def wsEchoReply (v : JsVal) (timestamp : String) : JsVal :=
  .obj [("type", .str "message"), ("data", wsEchoData v timestamp)]

/-- Whether processing the frame throws before the `switch` dispatch:
`JSON.parse` throws on non-JSON text, and the `data.type` access throws a
`TypeError` when the parsed value is `null` (or `undefined`). -/
def wsParseThrows : WsInput → Bool
  | .notJson => true
  | .json .null => true
  | .json .undef => true
  | .json _ => false

/-- One step of the message listener: the reply frame it sends (if any) and
whether it closes the connection (it never does).  `timestamp` stands for the
fresh `new Date().toISOString()` taken inside `handleChatMessage`. -/
def wsStep (i : WsInput) (timestamp : String) : Option JsVal × Bool :=
  match i with
  | .notJson => (some wsErrorReply, false)
  | .json .null => (some wsErrorReply, false)
  | .json .undef => (some wsErrorReply, false)
  | .json v =>
      match v.getField "type" with
      | .str "message" => (some (wsEchoReply v timestamp), false)
      | .str "status" => (none, false)
      | _ => (none, false)

/-! ## Langflow response normalization (`LangflowService.sendMessage`)

The success path computes
`response.data.outputs?.[0]?.outputs?.[0]?.results?.message?.text
 || response.data.result || 'No response'`.
-/

/-- The deeply nested extraction
`data.outputs?.[0]?.outputs?.[0]?.results?.message?.text`. -/
def nestedText (d : JsVal) : JsVal :=
  (((((d.getField "outputs").getIndex 0).getField "outputs").getIndex 0).getField
      "results").getField "message" |>.getField "text"

/-- The normalized `result` computed by `LangflowService.sendMessage` from the
engine's response body. -/
def normalizeResult (d : JsVal) : JsVal :=
  JsVal.jsOr (JsVal.jsOr (nestedText d) (d.getField "result")) (.str "No response")

/-- Modelled from the spec: the normalization described as an ordered list of
extraction strategies where the first match wins, a "match" being an
extraction that yields a truthy value. -/
def specFirstTruthy : List JsVal → JsVal → JsVal
  | [], fallback => fallback
  | x :: xs, fallback => if x.truthy then x else specFirstTruthy xs fallback

/-- Modelled from the spec: normalization as the ordered extraction list
(nested path, then top-level `result`, then the literal fallback), first
truthy match wins. -/
def specNormalize (d : JsVal) : JsVal :=
  specFirstTruthy [nestedText d, d.getField "result"] (.str "No response")

/-! ## Session store (`SessionService`)

`SessionService` keeps a private `Map<string, ChatSession>`; modelled as an
insertion-ordered association list with unique keys.  `new Date()` values are
modelled as a `now : Nat` parameter and `uuidv4()` values as explicit string
parameters.
-/

/-- The metadata attached by `LangflowService.sendMessage` to its normalized
response: `{ duration, timestamp }`. -/
structure LfMeta where
  duration : Nat
  timestamp : String
  deriving Repr, DecidableEq

/-- The `Message` entity of `src/shared/types/index.ts` (the optional
`metadata` is the Langflow metadata the chat route stores there). -/
structure Message where
  id : String
  content : String
  role : String
  timestamp : Nat
  flowId : Option String := none
  metadata : Option LfMeta := none
  deriving Repr, DecidableEq

/-- The `ChatSession` entity of `src/shared/types/index.ts`. -/
structure ChatSession where
  id : String
  title : String
  messages : List Message
  createdAt : Nat
  updatedAt : Nat
  flowId : Option String
  deriving Repr, DecidableEq

/-- The private `Map<string, ChatSession>` of one `SessionService` instance. -/
abbrev Store := List (String × ChatSession)

/-- `this.sessions.get(sessionId)`. -/
def getSession (store : Store) (sessionId : String) : Option ChatSession :=
  match store with
  | [] => none
  | (k, s) :: rest => if k = sessionId then some s else getSession rest sessionId

/-- `this.sessions.set(key, s)`: replaces the value at an existing key in
place, appends a new key. -/
def setSession (store : Store) (key : String) (s : ChatSession) : Store :=
  match store with
  | [] => [(key, s)]
  | (k, t) :: rest => if k = key then (k, s) :: rest else (k, t) :: setSession rest key s

/-- `SessionService.createSession`: a fresh session titled "New Chat" with no
messages and `createdAt = updatedAt = now`, stored under its id. -/
def createSession (store : Store) (newId : String) (now : Nat)
    (flowId : Option String) : ChatSession × Store :=
  let s : ChatSession :=
    { id := newId, title := "New Chat", messages := [], createdAt := now,
      updatedAt := now, flowId := flowId }
  (s, setSession store s.id s)

/-- The title derived from a first user message:
`content.slice(0, 50) + (content.length > 50 ? '...' : '')`. -/
def deriveTitle (content : String) : String :=
  content.take 50 ++ (if content.length > 50 then "..." else "")

/-- `SessionService.addMessage`: `undefined` if the session does not exist;
otherwise pushes the message, sets `updatedAt`, and derives the title when
the message is the session's first and its role is `user`. -/
def addMessage (store : Store) (sessionId : String) (m : Message) (now : Nat) :
    Option ChatSession × Store :=
  match getSession store sessionId with
  | none => (none, store)
  | some s =>
      let msgs := s.messages ++ [m]
      let title := if m.role = "user" ∧ msgs.length = 1 then deriveTitle m.content else s.title
      let s' : ChatSession := { s with messages := msgs, updatedAt := now, title := title }
      (some s', setSession store sessionId s')

/-- A `Partial<ChatSession>` argument to `SessionService.updateSession`; a
`none` field models an absent key (`Object.assign` skips it).  A present
`flowId` sets the session's `flowId` to that string. -/
structure SessionUpdates where
  id : Option String := none
  title : Option String := none
  messages : Option (List Message) := none
  createdAt : Option Nat := none
  updatedAt : Option Nat := none
  flowId : Option String := none
  deriving Repr, DecidableEq

/-- `SessionService.updateSession`: `undefined` if the session does not
exist; otherwise `Object.assign(session, updates, { updatedAt: new Date() })`
— every key present in `updates` is merged, and `updatedAt` is then
overwritten with `now`.  The map key is not touched even if `updates`
carries an `id`. -/
def updateSession (store : Store) (sessionId : String) (u : SessionUpdates)
    (now : Nat) : Option ChatSession × Store :=
  match getSession store sessionId with
  | none => (none, store)
  | some s =>
      let s' : ChatSession :=
        { id := u.id.getD s.id
          title := u.title.getD s.title
          messages := u.messages.getD s.messages
          createdAt := u.createdAt.getD s.createdAt
          updatedAt := now
          flowId := (u.flowId.map some).getD s.flowId }
      (some s', setSession store sessionId s')

/-! ## API boundary: request validation -/

/-- A hexadecimal digit, as in zod's UUID pattern. -/
def isHexDigit (c : Char) : Bool :=
  c.isDigit || ('a' ≤ c && c ≤ 'f') || ('A' ≤ c && c ≤ 'F')

/-- `z.string().uuid()`: the canonical 8-4-4-4-12 hexadecimal shape with
hyphens at positions 8, 13, 18 and 23. -/
def isUuid (s : String) : Bool :=
  let cs := s.toList
  cs.length = 36 &&
    (List.range 36).all fun i =>
      if i = 8 ∨ i = 13 ∨ i = 18 ∨ i = 23 then cs.getD i ' ' = '-'
      else isHexDigit (cs.getD i ' ')

/-- The `error.message` of a thrown `ZodError`, abstracted as a fixed string
(no claim inspects its text). -/
def zodErrorMessage : String := "Validation error"

/-- The body of `POST /api/chat/send` with its declared field types; a `none`
models an absent optional key. -/
structure SendBody where
  message : String
  sessionId : Option String := none
  flowId : Option String := none
  deriving Repr, DecidableEq

/-- `SendMessageSchema`: `message` between 1 and 10000 characters, and
`sessionId`, when present, a UUID. -/
def sendBodyValid (b : SendBody) : Bool :=
  1 ≤ b.message.length && b.message.length ≤ 10000 &&
    (match b.sessionId with
     | some s => isUuid s
     | none => true)

/-! ## Chat routes (`src/backend/routes/chat.ts`) -/

/-- The response of `POST /api/chat/send`: the `{success: true, data: {...}}`
envelope or the `{success: false, error}` envelope. -/
inductive SendOutcome : Type where
  | success (sessionId : String) (userMessage assistantMessage : Message)
      (session : Option ChatSession)
  | failure (error : String)
  deriving Repr

/-- The normalized reply of `LangflowService.sendMessage` as consumed by
the chat route (its `result` text and the metadata the route stores). -/
structure LangflowResp where
  result : String
  duration : Nat
  timestamp : String
  deriving Repr, DecidableEq

/-- The fresh `uuidv4()` values a single send request may draw. -/
structure SendIds where
  userMsgId : String
  assistantMsgId : String
  newSessionId : String
  deriving Repr, DecidableEq

/-- The session-resolution block of the send handler:
`let session = sessionId ? sessionService.getSession(sessionId) : null;
if (!session) { session = sessionService.createSession(flowId); }`. -/
def resolveSession (b : SendBody) (store : Store) (ids : SendIds) (now : Nat) :
    ChatSession × Store :=
  match b.sessionId with
  | some sid =>
      match getSession store sid with
      | some s => (s, store)
      | none => createSession store ids.newSessionId now b.flowId
  | none => createSession store ids.newSessionId now b.flowId

/-- The `const userMessage: Message = {...}` record of the send handler. -/
def userMessageOf (b : SendBody) (ids : SendIds) (now : Nat) (session : ChatSession) :
    Message :=
  { id := ids.userMsgId, content := b.message, role := "user", timestamp := now,
    flowId := session.flowId, metadata := none }

/-- The `const assistantMessage: Message = {...}` record of the send handler. -/
def assistantMessageOf (resp : LangflowResp) (ids : SendIds) (now : Nat)
    (session : ChatSession) : Message :=
  { id := ids.assistantMsgId, content := resp.result, role := "assistant", timestamp := now,
    flowId := session.flowId,
    metadata := some { duration := resp.duration, timestamp := resp.timestamp } }

/-- The `POST /api/chat/send` handler.  `engine` is the outcome of the
awaited `langflowService.sendMessage` call: the normalized response, or the
message of the error it threw.  Returns the HTTP status, the response
envelope, and the store it leaves behind.  A thrown `ZodError` is caught by
the handler's catch-all, which replies with status 500. -/
def sendRoute (b : SendBody) (store : Store) (ids : SendIds) (now : Nat)
    (engine : Except String LangflowResp) : (Nat × SendOutcome) × Store :=
  if sendBodyValid b then
    let resolved : ChatSession × Store := resolveSession b store ids now
    let session := resolved.1
    let userMessage := userMessageOf b ids now session
    let store2 := (addMessage resolved.2 session.id userMessage now).2
    match engine with
    | .error e => ((500, .failure e), store2)
    | .ok resp =>
        let assistantMessage := assistantMessageOf resp ids now session
        let store3 := (addMessage store2 session.id assistantMessage now).2
        ((200, .success session.id userMessage assistantMessage (getSession store3 session.id)),
          store3)
  else ((500, .failure zodErrorMessage), store)

/-- The response of `GET /api/chat/messages/:sessionId`. -/
inductive MessagesOutcome : Type where
  | success (messages : List Message) (session : ChatSession)
  | failure (error : String)
  deriving Repr

/-- The `GET /api/chat/messages/:sessionId` handler: `GetMessagesSchema`
requires a UUID (a `ZodError` lands in the catch-all, status 500); a missing
session yields 404. -/
def getMessagesRoute (sessionId : String) (store : Store) : Nat × MessagesOutcome :=
  if isUuid sessionId then
    match getSession store sessionId with
    | none => (404, .failure "Session not found")
    | some s => (200, .success s.messages s)
  else (500, .failure zodErrorMessage)

/-! ## Session routes (`src/backend/routes/sessions.ts`) -/

/-- The body of `PATCH /api/sessions/:sessionId` as sent by a client,
including attempts at fields outside `UpdateSessionSchema`. -/
structure PatchBody where
  title : Option String := none
  flowId : Option String := none
  id : Option String := none
  messages : Option (List Message) := none
  createdAt : Option Nat := none
  deriving Repr, DecidableEq

/-- `UpdateSessionSchema.parse`: a zod object in its default mode strips
every key other than `title` and `flowId`. -/
def parsePatchBody (b : PatchBody) : SessionUpdates :=
  { title := b.title, flowId := b.flowId }

/-- The response of `PATCH /api/sessions/:sessionId`. -/
inductive PatchOutcome : Type where
  | success (session : ChatSession)
  | failure (error : String)
  deriving Repr

/-- The `PATCH /api/sessions/:sessionId` handler. -/
def patchSessionRoute (sessionId : String) (b : PatchBody) (store : Store)
    (now : Nat) : (Nat × PatchOutcome) × Store :=
  let r := updateSession store sessionId (parsePatchBody b) now
  match r.1 with
  | none => ((404, .failure "Session not found"), r.2)
  | some s => ((200, .success s), r.2)

/-! ## The application state: one store per route module

`chat.ts` and `sessions.ts` each execute `const sessionService = new
SessionService()` at module level, so the chat routes and the session routes
each close over their own `SessionService` instance with its own private
`Map`. -/

/-- The module-level state of the backend: the chat route module's store and
the sessions route module's store. -/
structure AppState where
  chatStore : Store
  sessionsStore : Store
  deriving Repr, DecidableEq

/-- `POST /api/sessions`: creates a session in the sessions route module's
store. -/
def appPostSession (st : AppState) (flowId : Option String) (newId : String)
    (now : Nat) : (Nat × ChatSession) × AppState :=
  let r := createSession st.sessionsStore newId now flowId
  ((200, r.1), { st with sessionsStore := r.2 })

/-- `GET /api/chat/messages/:sessionId`: reads the chat route module's
store. -/
def appGetChatMessages (st : AppState) (sessionId : String) : Nat × MessagesOutcome :=
  getMessagesRoute sessionId st.chatStore

/-- `POST /api/chat/send`: runs against the chat route module's store. -/
def appSendMessage (st : AppState) (b : SendBody) (ids : SendIds) (now : Nat)
    (engine : Except String LangflowResp) : (Nat × SendOutcome) × AppState :=
  let r := sendRoute b st.chatStore ids now engine
  (r.1, { st with chatStore := r.2 })

/-- The session id carried by a successful send response. -/
def SendOutcome.respSessionId : SendOutcome → Option String
  | .success sid _ _ _ => some sid
  | .failure _ => none

/-- Whether a send response is the `{success: true, ...}` envelope. -/
def SendOutcome.isSuccess : SendOutcome → Bool
  | .success _ _ _ _ => true
  | .failure _ => false

/-- Whether an HTTP status is a client error. -/
def isClientErrorStatus (status : Nat) : Bool :=
  400 ≤ status && status < 500

/-- Well-formedness of a `SessionService` map: every session is stored under
its own id.  `createSession` and `addMessage` preserve it, and no HTTP route
can break it (`UpdateSessionSchema` strips `id`). -/
def StoreWF (store : Store) : Prop := ∀ p ∈ store, (p.2).id = p.1

instance (store : Store) : Decidable (StoreWF store) :=
  inferInstanceAs (Decidable (∀ p ∈ store, (p.2).id = p.1))

/-- The session value `addMessage` stores when the target session exists. -/
def pushedSession (s : ChatSession) (m : Message) (now : Nat) : ChatSession :=
  { s with messages := s.messages ++ [m], updatedAt := now,
           title := if m.role = "user" ∧ (s.messages ++ [m]).length = 1
                    then deriveTitle m.content else s.title }

/-! ### Concrete inputs for the claims' witness runs -/

/-- A supplied session id (a well-formed UUID) matching no stored session. -/
def c1SuppliedId : String := "123e4567-e89b-12d3-a456-426614174000"

def c1Body : SendBody := { message := "hi", sessionId := some c1SuppliedId }

def c1Ids : SendIds :=
  { userMsgId := "u1", assistantMsgId := "a1",
    newSessionId := "99999999-9999-4999-8999-999999999999" }

def c1Resp : LangflowResp := { result := "ok", duration := 1, timestamp := "T" }

def c2Body : SendBody := { message := "Hi" }

def c2Ids : SendIds := { userMsgId := "u1", assistantMsgId := "a1", newSessionId := "s1" }

/-- A fresh session, as `createSession` stores it, for concrete runs. -/
def c3Session : ChatSession :=
  { id := "a", title := "New Chat", messages := [], createdAt := 0,
    updatedAt := 0, flowId := none }

/-- The spec's own 11-character example message. -/
def c3Msg : Message :=
  { id := "m", content := "Hello world", role := "user", timestamp := 1 }

def c4Uuid : String := "123e4567-e89b-42d3-a456-426614174000"

/-- The session `createSession` stores for `c4Uuid` at time 0. -/
def c4Session : ChatSession :=
  { id := c4Uuid, title := "New Chat", messages := [], createdAt := 0,
    updatedAt := 0, flowId := none }

def c5Ids : SendIds := { userMsgId := "u", assistantMsgId := "a", newSessionId := "n" }

def c5Resp : LangflowResp := { result := "r", duration := 0, timestamp := "T" }

def c6Msg : Message := { id := "m0", content := "prior", role := "user", timestamp := 2 }

def c6Session : ChatSession :=
  { id := "a", title := "Old", messages := [c6Msg], createdAt := 5, updatedAt := 6,
    flowId := none }

/-- A PATCH body that also attempts to overwrite `id`, `messages` and
`createdAt`. -/
def c6Body : PatchBody :=
  { title := some "New title", flowId := some "wf", id := some "evil",
    messages := some [], createdAt := some 0 }

def c7Frame : JsVal := .obj [("type", .str "message"), ("data", .obj [("x", .num 1)])]

/-- An engine body whose nested text field is present but empty, with a
top-level `result` field. -/
def c9Body : JsVal :=
  .obj [("outputs", .arr [.obj [("outputs",
      .arr [.obj [("results", .obj [("message", .obj [("text", .str "")])])]])]]),
    ("result", .str "x")]

def c10Body : SendBody := { message := "hello", sessionId := some "not-a-uuid" }

def c10Ids : SendIds := { userMsgId := "u", assistantMsgId := "a", newSessionId := "n" }

/-! ## Store lemmas -/

theorem getSession_setSession_self (store : Store) (k : String) (s : ChatSession) :
    getSession (setSession store k s) k = some s := by
  induction store with
  | nil => simp [setSession, getSession]
  | cons p rest ih =>
      obtain ⟨k', t⟩ := p
      by_cases h : k' = k <;> simp [setSession, getSession, h, ih]

theorem getSession_mem {store : Store} {k : String} {s : ChatSession}
    (h : getSession store k = some s) : (k, s) ∈ store := by
  induction store with
  | nil => simp [getSession] at h
  | cons p rest ih =>
      obtain ⟨k', t⟩ := p
      by_cases hk : k' = k
      · simp [getSession, hk] at h
        simp [hk, h]
      · simp [getSession, hk] at h
        exact List.mem_cons_of_mem _ (ih h)

/-- After resolution, the resolved session is present in the resolved store
under its own id. -/
theorem resolveSession_getSession (b : SendBody) (store : Store) (ids : SendIds)
    (now : Nat) (hwf : StoreWF store) :
    getSession (resolveSession b store ids now).2 (resolveSession b store ids now).1.id =
      some (resolveSession b store ids now).1 := by
  unfold resolveSession
  cases hb : b.sessionId with
  | none => simp [createSession, getSession_setSession_self]
  | some sid =>
      cases hg : getSession store sid with
      | none => simp [hg, createSession, getSession_setSession_self]
      | some s =>
          have hid : s.id = sid := hwf (sid, s) (getSession_mem hg)
          simp [hid, hg]

/-- A string of length at most `n` is unchanged by `take n`. -/
theorem string_take_of_le (s : String) (n : Nat) (h : s.length ≤ n) : s.take n = s := by
  rw [String.take_eq]
  cases s with
  | mk data => exact congrArg String.mk (List.take_of_length_le h)

/-! ## Claim theorems -/

/-- C3: the title is derived exactly at the append of a session's first
message when that message's role is `user` — it becomes the first 50
characters of the content with `"..."` appended when the content exceeds 50
characters, and the content verbatim otherwise — and any other append leaves
the title unchanged. -/
theorem addMessage_title_derivation (store : Store) (sid : String) (s : ChatSession)
    (m : Message) (now : Nat) (hs : getSession store sid = some s) :
    (s.messages = [] → m.role = "user" →
      ((addMessage store sid m now).1.map ChatSession.title) =
        some (m.content.take 50 ++ if m.content.length > 50 then "..." else "") ∧
      (m.content.length ≤ 50 →
        ((addMessage store sid m now).1.map ChatSession.title) = some m.content)) ∧
    (¬(s.messages = [] ∧ m.role = "user") →
      ((addMessage store sid m now).1.map ChatSession.title) = some s.title) := by
  constructor
  · intro hempty hrole
    have hcond : m.role = "user" ∧ (s.messages ++ [m]).length = 1 := by
      simp [hempty, hrole]
    constructor
    · simp [addMessage, hs, hcond, deriveTitle]
    · intro hlen
      have : ¬ m.content.length > 50 := by omega
      simp [addMessage, hs, hcond, deriveTitle, this, string_take_of_le m.content 50 hlen]
  · intro hnot
    have hcond : ¬ (m.role = "user" ∧ (s.messages ++ [m]).length = 1) := by
      intro ⟨h1, h2⟩
      exact hnot ⟨by simpa using h2, h1⟩
    simp [addMessage, hs, hcond]
    intro h1 h2
    exact absurd ⟨h2, h1⟩ hnot

/-- Witness for C3: from the spec's own example, a first user message
"Hello world" (11 characters) yields the title "Hello world". -/
theorem addMessage_title_derivation_witness :
    ((addMessage [("a", c3Session)] "a" c3Msg 1).1.map ChatSession.title) =
      some "Hello world" := by
  exact ((addMessage_title_derivation [("a", c3Session)] "a" c3Session c3Msg 1
    (by decide)).1 rfl rfl).2 (by decide)

/-- `addMessage` on a present session returns and stores `pushedSession`. -/
theorem addMessage_spec (store : Store) (sid : String) (s : ChatSession) (m : Message)
    (now : Nat) (hs : getSession store sid = some s) :
    addMessage store sid m now =
      (some (pushedSession s m now), setSession store sid (pushedSession s m now)) := by
  simp [addMessage, pushedSession, hs]

/-- C2: when the engine call fails after the user message was appended, the
send handler replies with the failure envelope (status 500, carrying the
thrown message), and the resolved session's stored state is its previous
messages plus exactly the new user message — the user turn is not rolled
back and no assistant message is added. -/
theorem sendRoute_engine_failure_keeps_user_message (b : SendBody) (store : Store)
    (ids : SendIds) (now : Nat) (e : String)
    (hv : sendBodyValid b = true) (hwf : StoreWF store) :
    (sendRoute b store ids now (.error e)).1 = (500, .failure e) ∧
    ∃ s', getSession (sendRoute b store ids now (.error e)).2
            (resolveSession b store ids now).1.id = some s' ∧
      s'.messages = (resolveSession b store ids now).1.messages ++
        [userMessageOf b ids now (resolveSession b store ids now).1] ∧
      ∀ m ∈ s'.messages, m.role = "assistant" →
        m ∈ (resolveSession b store ids now).1.messages := by
  have hres := resolveSession_getSession b store ids now hwf
  have hadd := addMessage_spec (resolveSession b store ids now).2
    (resolveSession b store ids now).1.id (resolveSession b store ids now).1
    (userMessageOf b ids now (resolveSession b store ids now).1) now hres
  refine ⟨?_, ?_⟩
  · simp [sendRoute, hv]
  · refine ⟨pushedSession (resolveSession b store ids now).1
      (userMessageOf b ids now (resolveSession b store ids now).1) now, ?_, ?_, ?_⟩
    · show getSession (sendRoute b store ids now (.error e)).2 _ = some _
      simp only [sendRoute, hv, if_true, hadd]
      exact getSession_setSession_self _ _ _
    · rfl
    · intro m hm hrole
      have hm' : m ∈ (resolveSession b store ids now).1.messages ++
          [userMessageOf b ids now (resolveSession b store ids now).1] := hm
      rcases List.mem_append.1 hm' with h | h
      · exact h
      · simp at h
        rw [h] at hrole
        exact absurd hrole (by simp [userMessageOf])

/-- Witness for C2: a send of "Hi" into an empty store whose engine call
throws "boom" yields the 500 failure envelope and a session holding exactly
the user turn. -/
theorem sendRoute_engine_failure_keeps_user_message_witness :
    (sendRoute c2Body [] c2Ids 0 (.error "boom")).1 = (500, .failure "boom") ∧
    ∃ s', getSession (sendRoute c2Body [] c2Ids 0 (.error "boom")).2
            (resolveSession c2Body [] c2Ids 0).1.id = some s' ∧
      s'.messages = (resolveSession c2Body [] c2Ids 0).1.messages ++
        [userMessageOf c2Body c2Ids 0 (resolveSession c2Body [] c2Ids 0).1] ∧
      ∀ m ∈ s'.messages, m.role = "assistant" →
        m ∈ (resolveSession c2Body [] c2Ids 0).1.messages :=
  sendRoute_engine_failure_keeps_user_message c2Body [] c2Ids 0 "boom" (by decide) (by decide)

/-- C1 (code bug): sending with a supplied `sessionId` that matches no stored
session does not fail with NotFound — the handler silently creates and uses a
fresh session (the response succeeds and carries the fresh id, and the
supplied id still resolves to nothing), while the other entry point that
resolves a session, `GET /api/chat/messages/:sessionId`, answers 404 for the
same id — so the resolution policy also differs across entry points. -/
theorem sendRoute_missing_session_substitutes_fresh :
    (sendRoute c1Body [] c1Ids 0 (.ok c1Resp)).1.1 = 200 ∧
    (sendRoute c1Body [] c1Ids 0 (.ok c1Resp)).1.2.respSessionId = some c1Ids.newSessionId ∧
    c1Ids.newSessionId ≠ c1SuppliedId ∧
    getSession (sendRoute c1Body [] c1Ids 0 (.ok c1Resp)).2 c1SuppliedId = none ∧
    ((getSession (sendRoute c1Body [] c1Ids 0 (.ok c1Resp)).2 c1Ids.newSessionId).map
        (fun s => s.messages.length)) = some 2 ∧
    getMessagesRoute c1SuppliedId [] = (404, .failure "Session not found") := by
  exact ⟨rfl, rfl, by decide, rfl, rfl, rfl⟩

/-- C4 (code bug): a session created through `POST /api/sessions` lives in
the sessions route module's `SessionService` instance, and the chat route's
`GET /api/chat/messages/:sessionId`, which reads its own instance, answers
404 for it. -/
theorem routes_use_disjoint_stores :
    getSession ((appPostSession ⟨[], []⟩ none c4Uuid 0).2).sessionsStore c4Uuid =
      some c4Session ∧
    appGetChatMessages (appPostSession ⟨[], []⟩ none c4Uuid 0).2 c4Uuid =
      (404, .failure "Session not found") := by
  exact ⟨rfl, rfl⟩

/-- C5 counterexample: an empty message is rejected before any store
mutation, but the response status is 500 — not a client (4xx) error. -/
theorem sendRoute_validation_status_counterexample :
    (sendRoute { message := "" } [] c5Ids 0 (.ok c5Resp)).1.1 = 500 ∧
    isClientErrorStatus (sendRoute { message := "" } [] c5Ids 0 (.ok c5Resp)).1.1 = false ∧
    (sendRoute { message := "" } [] c5Ids 0 (.ok c5Resp)).2 = [] := by
  exact ⟨rfl, rfl, rfl⟩

/-- C5 (amended): every send request failing schema validation short-circuits
before any component runs — the store is returned untouched, so no session is
created and no message is appended — with the failure envelope, carried by an
HTTP 500 status. -/
theorem sendRoute_invalid_input_short_circuits (b : SendBody) (store : Store)
    (ids : SendIds) (now : Nat) (engine : Except String LangflowResp)
    (hv : sendBodyValid b = false) :
    sendRoute b store ids now engine = ((500, .failure zodErrorMessage), store) := by
  simp [sendRoute, hv]

/-- Witness for C5 (amended): the empty message against the empty store. -/
theorem sendRoute_invalid_input_short_circuits_witness :
    sendRoute { message := "" } [] c5Ids 0 (.ok c5Resp) =
      ((500, .failure zodErrorMessage), []) :=
  sendRoute_invalid_input_short_circuits { message := "" } [] c5Ids 0 (.ok c5Resp) (by decide)

/-- C10: a send whose `sessionId` is present but not a valid UUID is rejected
by `SendMessageSchema` before any store mutation: the store is returned
untouched and the response is the failure envelope. -/
theorem sendRoute_invalid_uuid_rejected (b : SendBody) (store : Store) (ids : SendIds)
    (now : Nat) (engine : Except String LangflowResp) (sid : String)
    (hsid : b.sessionId = some sid) (hbad : isUuid sid = false) :
    sendRoute b store ids now engine = ((500, .failure zodErrorMessage), store) := by
  have hv : sendBodyValid b = false := by
    simp [sendBodyValid, hsid, hbad]
  simp [sendRoute, hv]

/-- Witness for C10: `sessionId = "not-a-uuid"`. -/
theorem sendRoute_invalid_uuid_rejected_witness :
    sendRoute c10Body [] c10Ids 0 (.error "x") = ((500, .failure zodErrorMessage), []) :=
  sendRoute_invalid_uuid_rejected c10Body [] c10Ids 0 (.error "x") "not-a-uuid" rfl (by decide)

/-- C6: a PATCH on an existing session merges exactly the allowed fields
(title, flowId) and bumps `updatedAt`; the stored session's `id`, `messages`
and `createdAt` are unchanged whatever the body attempts, the disallowed
fields being stripped by the schema. -/
theorem patchSessionRoute_frame (sid : String) (b : PatchBody) (store : Store)
    (now : Nat) (s : ChatSession) (hs : getSession store sid = some s) :
    ∃ s', patchSessionRoute sid b store now = ((200, .success s'), setSession store sid s') ∧
      s'.id = s.id ∧ s'.messages = s.messages ∧ s'.createdAt = s.createdAt ∧
      s'.updatedAt = now ∧ s'.title = b.title.getD s.title ∧
      s'.flowId = (b.flowId.map some).getD s.flowId := by
  refine ⟨{ id := s.id, title := b.title.getD s.title, messages := s.messages,
            createdAt := s.createdAt, updatedAt := now,
            flowId := (b.flowId.map some).getD s.flowId }, ?_, rfl, rfl, rfl, rfl, rfl, rfl⟩
  simp [patchSessionRoute, updateSession, parsePatchBody, hs]

/-- Witness for C6: a body that changes the title and flowId while attempting
to overwrite `id`, `messages` and `createdAt`. -/
theorem patchSessionRoute_frame_witness :
    ∃ s', patchSessionRoute "a" c6Body [("a", c6Session)] 7 =
        ((200, .success s'), setSession [("a", c6Session)] "a" s') ∧
      s'.id = c6Session.id ∧ s'.messages = c6Session.messages ∧
      s'.createdAt = c6Session.createdAt ∧ s'.updatedAt = 7 ∧
      s'.title = (c6Body.title).getD c6Session.title ∧
      s'.flowId = ((c6Body.flowId).map some).getD c6Session.flowId :=
  patchSessionRoute_frame "a" c6Body [("a", c6Session)] 7 c6Session (by decide)

/-- `wsStep` on a parsed value that is not `null`/`undefined` is exactly the
`switch (data.type)` dispatch. -/
theorem wsStep_json_eq (v : JsVal) (hn : v ≠ .null) (hu : v ≠ .undef) (ts : String) :
    wsStep (.json v) ts =
      (match v.getField "type" with
       | .str "message" => (some (wsEchoReply v ts), false)
       | .str "status" => ((none : Option JsVal), false)
       | _ => ((none : Option JsVal), false)) := by
  cases v <;> first | rfl | (exact absurd rfl hn) | (exact absurd rfl hu)

/-- C7: a frame of type "message" is answered with exactly one envelope of
the same type whose data is the original data with `echo` set to `true` and
a fresh `timestamp` added; a frame of type "status", and a frame of any
other type, produce no reply; the connection is never closed. -/
theorem wsStep_dispatch (v : JsVal) (ts : String) (hn : v ≠ .null) (hu : v ≠ .undef) :
    (v.getField "type" = .str "message" →
      wsStep (.json v) ts = (some (.obj [("type", .str "message"),
        ("data", wsEchoData v ts)]), false)) ∧
    (v.getField "type" = .str "status" → wsStep (.json v) ts = (none, false)) ∧
    (v.getField "type" ≠ .str "message" → v.getField "type" ≠ .str "status" →
      wsStep (.json v) ts = (none, false)) := by
  refine ⟨?_, ?_, ?_⟩
  · intro h
    rw [wsStep_json_eq v hn hu, h]
    rfl
  · intro h
    rw [wsStep_json_eq v hn hu, h]
    rfl
  · intro h1 h2
    rw [wsStep_json_eq v hn hu]
    split
    next heq => exact absurd heq h1
    next heq => exact absurd heq h2
    next => rfl

/-- Witness for C7: echoing `{type: "message", data: {x: 1}}`. -/
theorem wsStep_dispatch_witness :
    wsStep (.json c7Frame) "T" =
      (some (.obj [("type", .str "message"),
        ("data", .obj [("x", .num 1), ("echo", .bool true), ("timestamp", .str "T")])]),
        false) :=
  (wsStep_dispatch c7Frame "T" (fun h => JsVal.noConfusion h)
    (fun h => JsVal.noConfusion h)).1 rfl

/-- C8: a frame on which envelope parsing throws (text that is not JSON, or
a parsed value on which the `data.type` access throws) is answered with
exactly `{type: "error", data: {error: "Invalid message format"}}`, and the
connection is not closed. -/
theorem wsStep_unparseable_error_reply (i : WsInput) (ts : String)
    (h : wsParseThrows i = true) :
    wsStep i ts = (some (.obj [("type", .str "error"),
      ("data", .obj [("error", .str "Invalid message format")])]), false) := by
  cases i with
  | notJson => rfl
  | json v => cases v <;> first | rfl | simp [wsParseThrows] at h

/-- Witness for C8: a frame that is not valid JSON. -/
theorem wsStep_unparseable_error_reply_witness :
    wsStep .notJson "T" = (some (.obj [("type", .str "error"),
      ("data", .obj [("error", .str "Invalid message format")])]), false) :=
  wsStep_unparseable_error_reply .notJson "T" rfl

/-- C9 counterexample: a response body whose nested path is present but holds
the empty string.  The first extraction matches (it is not a missing field),
yet the normalization result is the top-level `result` field, not the nested
text — "first match wins" fails for present-but-falsy values. -/
theorem normalizeResult_skips_present_falsy :
    nestedText c9Body = .str "" ∧ nestedText c9Body ≠ .undef ∧
    normalizeResult c9Body = .str "x" ∧ normalizeResult c9Body ≠ nestedText c9Body := by
  refine ⟨rfl, fun h => JsVal.noConfusion h, rfl, fun h => ?_⟩
  have h' : JsVal.str "x" = JsVal.str "" := h
  injection h' with h2
  exact absurd h2 (by decide)

/-- C9 (amended): the normalization is the ordered extraction list — nested
path, then top-level `result`, then the literal fallback "No response" —
where the first extraction yielding a truthy value wins (a present but falsy
value, such as an empty string, is skipped), and no missing field throws. -/
theorem normalizeResult_eq_specNormalize (d : JsVal) :
    normalizeResult d = specNormalize d := by
  by_cases h1 : (nestedText d).truthy <;> by_cases h2 : (d.getField "result").truthy <;>
    simp [normalizeResult, specNormalize, specFirstTruthy, JsVal.jsOr, h1, h2]

end Owh
